import Mathlib

/-!
Verification of the scoring-dashboard client (team-left).

The program keeps an in-memory list of timestamped score records fetched
from a remote API, splits it into a "fun" series (positive scores) and a
"tired" series (negative scores, absolute value) for line charts, and
aggregates a date/hour-filtered subset into two running totals for a pie
chart.

Modelling conventions:
* A record's `created_at` string is only ever used through
  `new Date(created_at).getTime()`, so it is modelled directly by that
  instant (an integer number of epoch milliseconds).
* Scores are signed integers.
* The runtime's local timezone is the fixed UTC+9 zone the app assumes
  throughout (boundary strings parsed without an explicit offset are
  interpreted in that zone); `instantJST` converts a wall-clock
  (day, hour, minute, second) in that zone to epoch milliseconds, where
  `day` is the calendar day index since the epoch.
* JS `Array.prototype.sort` with comparator
  `(a, b) => ta - tb` is modelled by insertion sort with respect to the
  corresponding total preorder on parsed instants.
* The React component state (`scoreData`, `loading`, `error`, and for the
  totals page `filteredData`) is a record, a completed fetch cycle is a
  transition on it indexed by the fetch outcome, and the top of the JSX
  return (loading / error guards) is a function from state to the view
  actually rendered.
-/

namespace TeamLeft

/-- A score record as decoded from the API payload; `created_at` is
modelled by the parsed instant `new Date(created_at).getTime()`. -/
structure ScoreData where
  created_at : Int
  id : Int
  score : Int
deriving DecidableEq, Repr

/-- The accumulator of the `totalData` reduce: `fun` collects scores
`≥ 0`, `tired` collects absolute values of negative scores. -/
structure Totals where
  «fun» : Int
  tired : Int
deriving DecidableEq, Repr

/-- One step of the `totalData` reduce (total/page.tsx):
`if (item.score >= 0) acc.fun += item.score;
 else acc.tired += Math.abs(item.score);`. -/
def totalStep (acc : Totals) (item : ScoreData) : Totals :=
  if item.score ≥ 0 then { acc with «fun» := acc.«fun» + item.score }
  else { acc with tired := acc.tired + |item.score| }

/-- `totalData = data.reduce(totalStep, { fun: 0, tired: 0 })`. -/
def totalData (records : List ScoreData) : Totals :=
  records.foldl totalStep { «fun» := 0, tired := 0 }

/-- `funData = scoreData.map(item => item.score > 0 ? item.score : null)`. -/
def funData (scoreData : List ScoreData) : List (Option Int) :=
  scoreData.map (fun item => if item.score > 0 then some item.score else none)

/-- `tiredData = scoreData.map(item => item.score < 0 ? Math.abs(item.score) : null)`. -/
def tiredData (scoreData : List ScoreData) : List (Option Int) :=
  scoreData.map (fun item => if item.score < 0 then some (|item.score|) else none)

/-- Milliseconds of the fixed UTC+9 offset. -/
def jstOffsetMs : Int := 9 * 60 * 60 * 1000

/-- Epoch-millisecond instant of the wall clock `(day, hour, minute, second)`
in the fixed UTC+9 zone (`day` = calendar day index since the epoch). -/
def instantJST (day hour minute second : Int) : Int :=
  (((day * 24 + hour) * 60 + minute) * 60 + second) * 1000 - jstOffsetMs

/-- `applyDateFilter` from total/page.tsx: keeps the records with
`new Date(startDate + "T" + HH(timeRange[0]) + ":00").getTime() <= createdAt`
and `createdAt <= new Date(endDate + "T" + HH(timeRange[1]) + ":59").getTime()`,
both boundary strings parsed in the local (UTC+9) zone, so the start
boundary is `(startDate, startHour, 00, 00)` and the end boundary
`(endDate, endHour, 59, 00)`. -/
def applyDateFilter (scoreData : List ScoreData)
    (startDate endDate startHour endHour : Int) : List ScoreData :=
  scoreData.filter fun item =>
    decide (instantJST startDate startHour 0 0 ≤ item.created_at ∧
            item.created_at ≤ instantJST endDate endHour 59 0)

/-- The filter useEffect of the second totals page: boundary strings carry
an explicit `+09:00` offset and the end anchor is `:59:59`, and
`createdAt` is the record's instant (the `formatDateToJST` round trip
through the UTC+9 wall clock re-parsed in the UTC+9 local zone is the
identity on whole-second instants). -/
def filterJST (scoreData : List ScoreData)
    (startDate endDate startTime endTime : Int) : List ScoreData :=
  scoreData.filter fun item =>
    decide (instantJST startDate startTime 0 0 ≤ item.created_at ∧
            item.created_at ≤ instantJST endDate endTime 59 59)

/-- Ordering of records by parsed `created_at` instant, as used by the
fetch sort comparator `(a, b) => ta - tb`. -/
def byCreatedAt (a b : ScoreData) : Prop := a.created_at ≤ b.created_at

instance : DecidableRel byCreatedAt := fun a b => by
  unfold byCreatedAt; infer_instance

instance : IsTotal ScoreData byCreatedAt :=
  ⟨fun a b => Int.le_total a.created_at b.created_at⟩

instance : IsTrans ScoreData byCreatedAt :=
  ⟨fun _ _ _ hab hbc => le_trans hab hbc⟩

/-- `result.data.sort((a, b) => new Date(a.created_at).getTime() -
new Date(b.created_at).getTime())`. -/
def sortByCreatedAt (data : List ScoreData) : List ScoreData :=
  List.insertionSort byCreatedAt data

/-- The outcome of one completed fetch cycle: transport success with
`status === "OK"`, a transport-level failure (non-ok response or thrown
fetch), or a decoded payload whose status is not `"OK"`. -/
inductive FetchOutcome where
  | ok (data : List ScoreData)
  | transportFail
  | badStatus (data : List ScoreData)
deriving DecidableEq

/-- Message thrown on transport failure. -/
def transportErrorMsg : String := "データの取得に失敗しました"

/-- Message thrown when the payload status is not "OK". -/
def statusErrorMsg : String := "APIからの応答が正常ではありません"

/-- State of the live line-chart component. -/
structure HomeState where
  scoreData : List ScoreData
  loading : Bool
  error : Option String
deriving DecidableEq

/-- `useState` initial values of the live component. -/
def initialHomeState : HomeState :=
  { scoreData := [], loading := true, error := none }

/-- One completed `fetchData` cycle of the live component: on success the
sorted payload replaces `scoreData`; on failure `setError` records the
thrown message; `finally` clears `loading` in every case. `error` is
never reset to `null` on any path. -/
def fetchData (s : HomeState) (outcome : FetchOutcome) : HomeState :=
  match outcome with
  | .ok data =>
      { s with scoreData := sortByCreatedAt data, loading := false }
  | .transportFail =>
      { s with error := some transportErrorMsg, loading := false }
  | .badStatus _ =>
      { s with error := some statusErrorMsg, loading := false }

/-- What the component renders. -/
inductive View where
  | loadingView
  | errorView (msg : String)
  | dataView (data : List ScoreData)
deriving DecidableEq

/-- The render guards:
`if (loading && scoreData.length === 0) return <div>読み込み中...</div>;
 if (error) return <div>エラー: {error}</div>;` else the chart. -/
def render (s : HomeState) : View :=
  if s.loading = true ∧ s.scoreData.length = 0 then View.loadingView
  else
    match s.error with
    | some msg => View.errorView msg
    | none => View.dataView s.scoreData

/-- State of the totals (pie-chart) component. -/
structure TotalState where
  scoreData : List ScoreData
  filteredData : List ScoreData
  loading : Bool
  error : Option String
deriving DecidableEq

/-- `useState` initial values of the totals component. -/
def initialTotalState : TotalState :=
  { scoreData := [], filteredData := [], loading := true, error := none }

/-- One completed `fetchData` cycle of the totals component: on success
the payload replaces `scoreData` and `filteredData` as received, with no
sort. -/
def fetchDataTotal (s : TotalState) (outcome : FetchOutcome) : TotalState :=
  match outcome with
  | .ok data =>
      { s with scoreData := data, filteredData := data, loading := false }
  | .transportFail =>
      { s with error := some transportErrorMsg, loading := false }
  | .badStatus _ =>
      { s with error := some statusErrorMsg, loading := false }

/-! ### Helper lemmas -/

/-- Closed form of the `totalData` fold from any accumulator: `fun` gains
the sum of the nonnegative scores, `tired` the sum of the absolute values
of the negative scores. -/
theorem totalData_foldl (l : List ScoreData) (acc : Totals) :
    l.foldl totalStep acc =
      { «fun» := acc.«fun» + (l.map (fun it => if it.score ≥ 0 then it.score else 0)).sum,
        tired := acc.tired + (l.map (fun it => if it.score < 0 then |it.score| else 0)).sum } := by
  induction l generalizing acc with
  | nil => simp
  | cons hd tl ih =>
      rw [List.foldl_cons, ih]
      by_cases h : hd.score ≥ 0
      · have h2 : ¬ hd.score < 0 := not_lt.mpr h
        simp [totalStep, h, h2, Totals.mk.injEq, add_assoc]
      · have h2 : hd.score < 0 := not_le.mp h
        simp [totalStep, h, h2, Totals.mk.injEq, add_assoc]

/-- Closed form of `totalData` itself. -/
theorem totalData_eq (l : List ScoreData) :
    totalData l =
      { «fun» := (l.map (fun it => if it.score ≥ 0 then it.score else 0)).sum,
        tired := (l.map (fun it => if it.score < 0 then |it.score| else 0)).sum } := by
  rw [totalData, totalData_foldl]
  simp

/-! ### Claims -/

/-- C1. Range aggregation (Operation B): over the date/hour-filtered
records, `totalData` starts from `{fun := 0, tired := 0}` and adds each
in-range record's score to `fun` when `score ≥ 0` and `|score|` to
`tired` when `score < 0`; prepending a zero-score record to the input
never changes the totals (it contributes `0` to `fun` and nothing to
`tired`). -/
theorem range_aggregation_characterization
    (R : List ScoreData) (sd ed sh eh : Int) :
    totalData (applyDateFilter R sd ed sh eh) =
      { «fun» := ((applyDateFilter R sd ed sh eh).map
            (fun it => if it.score ≥ 0 then it.score else 0)).sum,
        tired := ((applyDateFilter R sd ed sh eh).map
            (fun it => if it.score < 0 then |it.score| else 0)).sum } ∧
    ∀ (i t : Int),
      totalData (applyDateFilter
          ({ created_at := t, id := i, score := 0 } :: R) sd ed sh eh) =
        totalData (applyDateFilter R sd ed sh eh) := by
  refine ⟨totalData_eq _, fun i t => ?_⟩
  rw [applyDateFilter, applyDateFilter, List.filter_cons]
  split
  · rw [totalData_eq, totalData_eq]
    simp
  · rfl

/-- C9. Total decomposition: the unfiltered totals satisfy
`fun + tired = Σ |score|` over the whole record set. -/
theorem total_decomposition (R : List ScoreData) :
    (totalData R).«fun» + (totalData R).tired =
      (R.map (fun it => |it.score|)).sum := by
  rw [totalData_eq]
  show (R.map (fun it => if it.score ≥ 0 then it.score else 0)).sum +
      (R.map (fun it => if it.score < 0 then |it.score| else 0)).sum =
    (R.map (fun it => |it.score|)).sum
  induction R with
  | nil => simp
  | cons hd tl ih =>
      simp only [List.map_cons, List.sum_cons]
      by_cases h : hd.score ≥ 0
      · have h2 : ¬ hd.score < 0 := not_lt.mpr h
        rw [if_pos h, if_neg h2]
        rw [abs_of_nonneg h]
        omega
      · have h2 : hd.score < 0 := not_le.mp h
        rw [if_neg h, if_pos h2]
        omega

/-- C2. Series split (Operation A): both output series have the input's
length and, at every index holding `item`, the `fun` entry is
`item.score` exactly when `item.score > 0` (else absent) and the `tired`
entry is `|item.score|` exactly when `item.score < 0` (else absent); a
zero-score record is absent from both. -/
theorem series_split_pointwise (R : List ScoreData) :
    (funData R).length = R.length ∧ (tiredData R).length = R.length ∧
    ∀ (i : Nat) (item : ScoreData), R[i]? = some item →
      (funData R)[i]? = some (if item.score > 0 then some item.score else none) ∧
      (tiredData R)[i]? = some (if item.score < 0 then some (|item.score|) else none) ∧
      (item.score = 0 →
        (funData R)[i]? = some none ∧ (tiredData R)[i]? = some none) := by
  refine ⟨by simp [funData], by simp [tiredData], fun i item hi => ?_⟩
  have hf : (funData R)[i]? =
      some (if item.score > 0 then some item.score else none) := by
    rw [funData, List.getElem?_map, hi, Option.map_some']
  have ht : (tiredData R)[i]? =
      some (if item.score < 0 then some (|item.score|) else none) := by
    rw [tiredData, List.getElem?_map, hi, Option.map_some']
  refine ⟨hf, ht, fun h0 => ?_⟩
  rw [hf, ht, h0]
  norm_num

/-- C2 witness: Scenario 2 data `[10, -5, 0]` yields
`fun = [10, absent, absent]` and `tired = [absent, 5, absent]`. -/
theorem series_split_pointwise_witness :
    (funData [⟨1, 1, 10⟩, ⟨2, 2, -5⟩, ⟨3, 3, 0⟩])[1]? = some none ∧
    (tiredData [⟨1, 1, 10⟩, ⟨2, 2, -5⟩, ⟨3, 3, 0⟩])[1]? = some (some 5) := by
  have h := (series_split_pointwise
      [⟨1, 1, 10⟩, ⟨2, 2, -5⟩, ⟨3, 3, 0⟩]).2.2 1 ⟨2, 2, -5⟩ (by decide)
  refine ⟨?_, ?_⟩
  · rw [h.1]; decide
  · rw [h.2.1]; decide

/-- C7. Series disjointness: at no index are the `fun` and `tired`
entries both present, and at an index holding a zero-score record both
are absent. -/
theorem series_disjoint (R : List ScoreData) (i : Nat) :
    (∀ (a b : Int), ¬((funData R)[i]? = some (some a) ∧
        (tiredData R)[i]? = some (some b))) ∧
    (∀ (item : ScoreData), R[i]? = some item → item.score = 0 →
      (funData R)[i]? = some none ∧ (tiredData R)[i]? = some none) := by
  constructor
  · rintro a b ⟨hfa, htb⟩
    rw [funData, List.getElem?_map] at hfa
    rw [tiredData, List.getElem?_map] at htb
    cases hR : R[i]? with
    | none => rw [hR] at hfa; simp at hfa
    | some item =>
        rw [hR, Option.map_some'] at hfa htb
        have h1 : item.score > 0 := by
          by_contra h
          rw [if_neg h] at hfa
          simp at hfa
        have h2 : item.score < 0 := by
          by_contra h
          rw [if_neg h] at htb
          simp at htb
        omega
  · intro item hi h0
    have hf : (funData R)[i]? =
        some (if item.score > 0 then some item.score else none) := by
      rw [funData, List.getElem?_map, hi, Option.map_some']
    have ht : (tiredData R)[i]? =
        some (if item.score < 0 then some (|item.score|) else none) := by
      rw [tiredData, List.getElem?_map, hi, Option.map_some']
    rw [hf, ht, h0]
    norm_num

/-- C7 witness: on `[10, -5, 0]` at index 2 (score 0) both entries are
absent, and no pair of values is simultaneously present. -/
theorem series_disjoint_witness :
    (funData [⟨1, 1, 10⟩, ⟨2, 2, -5⟩, ⟨3, 3, 0⟩])[2]? = some none ∧
    (tiredData [⟨1, 1, 10⟩, ⟨2, 2, -5⟩, ⟨3, 3, 0⟩])[2]? = some none := by
  exact (series_disjoint [⟨1, 1, 10⟩, ⟨2, 2, -5⟩, ⟨3, 3, 0⟩] 2).2
    ⟨3, 3, 0⟩ (by decide) (by decide)

/-- C3. Filter boundary semantics: both filters keep exactly the records
whose instant lies in `[start, end]` with inclusive comparison at both
ends, where the start boundary is the instant of
`(startDate, startHour, :00)` in UTC+9 for both, and the end boundary is
the instant of `(endDate, endHour, :59)` in UTC+9 (`:59:00` for
`applyDateFilter`, `:59:59` for the totals-page `filterJST`); a record
whose instant equals a boundary satisfies the inclusive bound and is
kept. -/
theorem filter_boundary_semantics
    (R : List ScoreData) (sd ed sh eh : Int) (item : ScoreData) :
    (item ∈ applyDateFilter R sd ed sh eh ↔
      item ∈ R ∧ instantJST sd sh 0 0 ≤ item.created_at ∧
        item.created_at ≤ instantJST ed eh 59 0) ∧
    (item ∈ filterJST R sd ed sh eh ↔
      item ∈ R ∧ instantJST sd sh 0 0 ≤ item.created_at ∧
        item.created_at ≤ instantJST ed eh 59 59) := by
  constructor
  · rw [applyDateFilter, List.mem_filter]
    simp only [decide_eq_true_eq]
  · rw [filterJST, List.mem_filter]
    simp only [decide_eq_true_eq]

/-- C3 witness: with start boundary `(day 0, hour 0)` and end boundary
`(day 0, hour 1)`, a record exactly at the start instant is kept. -/
theorem filter_boundary_semantics_witness :
    (⟨instantJST 0 0 0 0, 1, 4⟩ : ScoreData) ∈
      applyDateFilter [⟨instantJST 0 0 0 0, 1, 4⟩] 0 0 0 1 := by
  exact (filter_boundary_semantics [⟨instantJST 0 0 0 0, 1, 4⟩] 0 0 0 1
      ⟨instantJST 0 0 0 0, 1, 4⟩).1.mpr
    ⟨List.mem_singleton.mpr rfl, le_refl _, by decide⟩

/-- C8. Inverted range: when the start instant is strictly greater than
the end instant, the filtered set is empty and Operation B returns
`{fun := 0, tired := 0}` (a normal result, not an error). -/
theorem inverted_range_empty (R : List ScoreData) (sd ed sh eh : Int)
    (h : instantJST ed eh 59 0 < instantJST sd sh 0 0) :
    applyDateFilter R sd ed sh eh = [] ∧
    totalData (applyDateFilter R sd ed sh eh) = { «fun» := 0, tired := 0 } := by
  have hnil : applyDateFilter R sd ed sh eh = [] := by
    rw [applyDateFilter, List.filter_eq_nil_iff]
    intro item _
    simp only [decide_eq_true_eq, not_and, not_le]
    intro hlo
    exact lt_of_lt_of_le h hlo
  exact ⟨hnil, by rw [hnil]; rfl⟩

/-- C8 witness: start `(day 1, hour 0)` is after end `(day 0, hour 0)`,
so the filter drops everything and the totals are zero. -/
theorem inverted_range_empty_witness :
    applyDateFilter [⟨0, 1, 3⟩, ⟨100, 2, -2⟩] 1 0 0 0 = [] ∧
    totalData (applyDateFilter [⟨0, 1, 3⟩, ⟨100, 2, -2⟩] 1 0 0 0) =
      { «fun» := 0, tired := 0 } :=
  inverted_range_empty [⟨0, 1, 3⟩, ⟨100, 2, -2⟩] 1 0 0 0 (by decide)

/-- C5 counterexample: the claim says every view that fetches records
stores them sorted ascending by `created_at`, but the totals view's
`fetchData` stores the payload as received: an out-of-order payload
(instants 100 then 50) is stored unsorted. -/
theorem totals_fetch_not_sorted :
    ¬ List.Sorted byCreatedAt
      (fetchDataTotal initialTotalState
        (FetchOutcome.ok [⟨100, 1, 5⟩, ⟨50, 2, 3⟩])).scoreData := by
  intro hsort
  have h := List.rel_of_sorted_cons hsort ⟨50, 2, 3⟩ (List.mem_singleton.mpr rfl)
  exact absurd h (by decide)

/-- C5 (amended). After every successful fetch, the live line-chart
views store the payload sorted ascending by parsed `created_at` instant;
the totals views store the payload exactly as received, unsorted. -/
theorem live_fetch_sorted (s : HomeState) (t : TotalState)
    (d : List ScoreData) :
    List.Sorted byCreatedAt (fetchData s (FetchOutcome.ok d)).scoreData ∧
    (fetchDataTotal t (FetchOutcome.ok d)).scoreData = d := by
  constructor
  · show List.Sorted byCreatedAt (sortByCreatedAt d)
    exact List.sorted_insertionSort byCreatedAt d
  · rfl

/-- C6. Fetch success condition: the record set is replaced (with the
sorted payload) exactly on the transport-success-and-status-OK outcome;
a transport failure and a non-OK status both leave the record set
unchanged and set an error, and the two error messages differ. -/
theorem fetch_success_condition (s : HomeState) (d : List ScoreData) :
    (fetchData s (FetchOutcome.ok d)).scoreData = sortByCreatedAt d ∧
    (fetchData s (FetchOutcome.ok d)).error = s.error ∧
    (fetchData s FetchOutcome.transportFail).scoreData = s.scoreData ∧
    (fetchData s FetchOutcome.transportFail).error = some transportErrorMsg ∧
    (fetchData s (FetchOutcome.badStatus d)).scoreData = s.scoreData ∧
    (fetchData s (FetchOutcome.badStatus d)).error = some statusErrorMsg ∧
    transportErrorMsg ≠ statusErrorMsg :=
  ⟨rfl, rfl, rfl, rfl, rfl, rfl, by decide⟩

/-- C4 counterexample: after a successful fetch has loaded a record, a
subsequent transport failure keeps the record in memory, but the render
is the error view, not the data view — the claim that the already-loaded
record set remains displayed is false. -/
theorem failed_refresh_replaces_view :
    (fetchData (fetchData initialHomeState (FetchOutcome.ok [⟨10, 1, 7⟩]))
        FetchOutcome.transportFail).scoreData = [⟨10, 1, 7⟩] ∧
    render (fetchData (fetchData initialHomeState (FetchOutcome.ok [⟨10, 1, 7⟩]))
        FetchOutcome.transportFail) = View.errorView transportErrorMsg ∧
    render (fetchData (fetchData initialHomeState (FetchOutcome.ok [⟨10, 1, 7⟩]))
        FetchOutcome.transportFail) ≠ View.dataView [⟨10, 1, 7⟩] := by
  refine ⟨rfl, ?_, ?_⟩
  · rfl
  · intro h
    exact absurd h (by decide)

/-- C4 (amended). The loading indicator is rendered only while the state
has never completed a fetch (`loading` still true and the record set
empty); any completed fetch clears `loading`. A failed fetch after data
has loaded keeps the record set in memory unchanged — on both a
transport failure and a non-OK status — but the render shows the error
view instead of the data view; with no prior error, a successful fetch
renders the data view of the sorted payload. -/
theorem loading_first_paint_and_retention
    (s : HomeState) (o : FetchOutcome) (d : List ScoreData) :
    (fetchData s o).loading = false ∧
    (render s = View.loadingView → s.loading = true ∧ s.scoreData = []) ∧
    (fetchData s FetchOutcome.transportFail).scoreData = s.scoreData ∧
    (fetchData s (FetchOutcome.badStatus d)).scoreData = s.scoreData ∧
    (s.error = none →
      render (fetchData s (FetchOutcome.ok d)) =
        View.dataView (sortByCreatedAt d)) := by
  refine ⟨?_, ?_, rfl, rfl, ?_⟩
  · cases o <;> rfl
  · intro h
    rw [render] at h
    split at h
    · next hc => exact ⟨hc.1, List.length_eq_zero.mp hc.2⟩
    · split at h <;> exact absurd h (by simp)
  · intro he
    rw [render]
    have hload : (fetchData s (FetchOutcome.ok d)).loading = false := rfl
    have herr : (fetchData s (FetchOutcome.ok d)).error = s.error := rfl
    rw [if_neg (by rw [hload]; simp), herr, he]
    rfl

/-- C4 amended witness: from the initial state (which renders the
loading view), a transport failure keeps the empty record set and a
successful fetch with no prior error renders the data view. -/
theorem loading_first_paint_and_retention_witness :
    (fetchData initialHomeState FetchOutcome.transportFail).loading = false ∧
    (initialHomeState.loading = true ∧ initialHomeState.scoreData = []) ∧
    render (fetchData initialHomeState (FetchOutcome.ok [⟨10, 1, 7⟩])) =
      View.dataView (sortByCreatedAt [⟨10, 1, 7⟩]) := by
  have h := loading_first_paint_and_retention initialHomeState
    FetchOutcome.transportFail [⟨10, 1, 7⟩]
  have h2 := loading_first_paint_and_retention initialHomeState
    (FetchOutcome.ok [⟨10, 1, 7⟩]) [⟨10, 1, 7⟩]
  exact ⟨h.1, h.2.1 (by decide), h2.2.2.2.2 rfl⟩

/-- C10. Sticky error: once `error` is set, no fetch outcome ever
resets it to `none` — a successful fetch leaves the previous error
untouched — and every subsequent render is the error view (never the
loading or data view), even though a successful fetch still refreshes
the in-memory record set. -/
theorem sticky_error (s : HomeState) (o : FetchOutcome) (m : String)
    (h : s.error = some m) :
    (fetchData s o).error.isSome = true ∧
    (∀ (d : List ScoreData), (fetchData s (FetchOutcome.ok d)).error = some m ∧
      (fetchData s (FetchOutcome.ok d)).scoreData = sortByCreatedAt d) ∧
    ∀ (m' : String), (fetchData s o).error = some m' →
      render (fetchData s o) = View.errorView m' := by
  refine ⟨?_, fun d => ⟨?_, rfl⟩, ?_⟩
  · cases o with
    | ok d => show s.error.isSome = true; rw [h]; rfl
    | transportFail => rfl
    | badStatus d => rfl
  · show s.error = some m
    exact h
  · intro m' hm'
    have hload : (fetchData s o).loading = false := by cases o <;> rfl
    rw [render, if_neg (by rw [hload]; simp), hm']

/-- A state in which a transport failure has already been recorded. -/
def erroredState : HomeState :=
  { scoreData := [], loading := false, error := some transportErrorMsg }

/-- C10 witness: with an error already recorded, a successful fetch
keeps the error and its render is the error view. -/
theorem sticky_error_witness :
    (fetchData erroredState (FetchOutcome.ok [])).error =
      some transportErrorMsg ∧
    render (fetchData erroredState (FetchOutcome.ok [])) =
      View.errorView transportErrorMsg := by
  have h := sticky_error erroredState (FetchOutcome.ok [])
    transportErrorMsg rfl
  exact ⟨(h.2.1 []).1, h.2.2 transportErrorMsg (h.2.1 []).1⟩

end TeamLeft
